import Mathlib

/-!
Shallow embedding of the MOCO MySQLCluster reconciler
(`controllers/mysqlcluster_controller.go`) and proofs about it.

Go values are modelled as follows: `*T` pointers become `Option T`,
Go slices become `List`, Go maps become association lists
(`List (String × String)`), machine integers become `Int` (with explicit
`% 2 ^ 32` where 32-bit overflow matters, as in the FNV-32a hash), and
fallible code returns `Except String`.  The Kubernetes API server is
modelled as an explicit state record threaded through each reconcile
step; every API operation is also recorded in an operation trace.
-/

namespace Moco

/-! ### Constants from `pkg/constants`

Modelled from the spec: the `pkg/constants` package is not part of the
provided sources; the string values below follow the spec naming surface
(section 6) and the label-set description (section 3). -/

def mysqldContainerName : String := "mysqld"

def mysqlPortName : String := "mysql"

def mysqlXPortName : String := "mysqlx"

def mysqlPortNumber : Int := 3306

def mysqlXPortNumber : Int := 33060

def mysqlClusterFinalizer : String := "moco.cybozu.com/mysqlcluster"

def backupSubcommand : String := "backup"

def restoreSubcommand : String := "restore"

/-! ### FNV-32a and lowercase hex encoding

`reconcileV1MyCnf` computes `fnv.New32a()` over the bytes of the rendered
configuration and hex-encodes the 4-byte big-endian sum
(`hex.EncodeToString(fnv32a.Sum(nil))`). -/

def fnvOffsetBasis32 : Nat := 2166136261

def fnvPrime32 : Nat := 16777619

def fnv32aStep (h b : Nat) : Nat := ((h ^^^ b) * fnvPrime32) % 2 ^ 32

def fnv32a (bytes : List Nat) : Nat := bytes.foldl fnv32aStep fnvOffsetBasis32

/-- UTF-8 encoding of a single code point, modelling Go's `[]byte(s)`. -/
def utf8EncodeCodePoint (c : Nat) : List Nat :=
  if c < 0x80 then [c]
  else if c < 0x800 then
    [0xC0 ||| (c >>> 6), 0x80 ||| (c &&& 0x3F)]
  else if c < 0x10000 then
    [0xE0 ||| (c >>> 12), 0x80 ||| ((c >>> 6) &&& 0x3F), 0x80 ||| (c &&& 0x3F)]
  else
    [0xF0 ||| (c >>> 18), 0x80 ||| ((c >>> 12) &&& 0x3F),
     0x80 ||| ((c >>> 6) &&& 0x3F), 0x80 ||| (c &&& 0x3F)]

def stringBytes (s : String) : List Nat :=
  s.data.flatMap (fun c => utf8EncodeCodePoint c.toNat)

def hexDigitChar (n : Nat) : Char :=
  if n < 10 then Char.ofNat (48 + n) else Char.ofNat (87 + n)

def byteToHex (b : Nat) : String :=
  String.mk [hexDigitChar (b / 16), hexDigitChar (b % 16)]

/-- Lowercase hex of the 4 big-endian bytes of a 32-bit value. -/
def hexDigest32 (h : Nat) : String :=
  byteToHex (h >>> 24 % 256) ++ byteToHex (h >>> 16 % 256) ++
  byteToHex (h >>> 8 % 256) ++ byteToHex (h % 256)

/-! ### Resource requirements of the `mysqld` container -/

/-- A `resource.Quantity`; only its integer value matters here. -/
structure Quantity where
  value : Int
deriving Repr, DecidableEq

/-- A `corev1.ResourceList` restricted to the `memory` key, which is the
only key `reconcileV1MyCnf` reads. -/
structure GoResourceList where
  memory : Option Quantity
deriving Repr, DecidableEq

structure GoResources where
  limits : Option GoResourceList
  requests : Option GoResourceList
deriving Repr, DecidableEq

/-- Go's `ResourceList.Memory()` returns a zero quantity when the key is
absent; `IsZero` then holds exactly when this value is `0`. -/
def memoryValue (rl : GoResourceList) : Int :=
  match rl.memory with
  | none => 0
  | some q => q.value

/-- The memory budget computation of `reconcileV1MyCnf` (lines 358-372):
start from `0`; take `limits.memory` when present and non-zero; then let
`requests.memory` override when present and non-zero. -/
def totalMemOf (res : Option GoResources) : Int :=
  match res with
  | none => 0
  | some r =>
    let t0 : Int := 0
    let t1 : Int :=
      match r.limits with
      | none => t0
      | some lim => if memoryValue lim = 0 then t0 else memoryValue lim
    let t2 : Int :=
      match r.requests with
      | none => t1
      | some req => if memoryValue req = 0 then t1 else memoryValue req
    t2

/-- The memory budget as the spec words it: `requests.memory` when set and
non-zero, otherwise `limits.memory` when set and non-zero, otherwise zero.
This definition follows the spec text and exists to be compared with
`totalMemOf`, which is translated from the source. -/
def specMemoryBudget (res : Option GoResources) : Int :=
  match res with
  | none => 0
  | some r =>
    let reqv : Int := match r.requests with | none => 0 | some q => memoryValue q
    let limv : Int := match r.limits with | none => 0 | some q => memoryValue q
    if reqv ≠ 0 then reqv else if limv ≠ 0 then limv else 0

/-! ### Cluster model -/

structure Container where
  name : String
  resources : Option GoResources
deriving Repr, DecidableEq

structure BucketConfig where
  bucketName : String
  region : String
  endpointURL : String
  usePathStyle : Bool
deriving Repr, DecidableEq

structure JobConfig where
  serviceAccountName : String
  threads : Int
  bucketConfig : BucketConfig
deriving Repr, DecidableEq

structure RestoreSpec where
  sourceName : String
  sourceNamespace : String
  /-- The restore point already rendered with `UTC().Format(BackupTimeFormat)`;
  time formatting itself is not modelled. -/
  restorePointFormatted : String
  jobConfig : JobConfig
deriving Repr, DecidableEq

structure PortTemplate where
  name : Option String
  nodePort : Option Int
deriving Repr, DecidableEq

structure ServiceSpecTemplate where
  ports : List PortTemplate
deriving Repr, DecidableEq

structure ServiceTemplate where
  labels : List (String × String)
  annotations : List (String × String)
  spec : Option ServiceSpecTemplate
deriving Repr, DecidableEq

structure MySQLCluster where
  name : String
  namespaceName : String
  generation : Int
  statusGeneration : Int
  statusReconcileVersion : Int
  deletionTimestamp : Bool
  finalizers : List String
  replicas : Int
  containers : List Container
  mysqlConfigMapName : Option String
  backupPolicyName : Option String
  restore : Option RestoreSpec
  statusRestoredTime : Bool
  disableSlowQueryLogContainer : Bool
  primaryServiceTemplate : Option ServiceTemplate
  replicaServiceTemplate : Option ServiceTemplate
deriving Repr, DecidableEq

/-! Deterministic child names.  Modelled from the spec: the `api/v1beta2`
name helpers are not part of the provided sources; the derivations follow
the spec naming surface (section 6). -/

def prefixedName (c : MySQLCluster) : String := "moco-" ++ c.name

def userSecretName (c : MySQLCluster) : String := "moco-" ++ c.name

def myCnfSecretName (c : MySQLCluster) : String := "moco-my-cnf-" ++ c.name

def controllerSecretName (c : MySQLCluster) : String :=
  c.namespaceName ++ "." ++ c.name

def certificateName (c : MySQLCluster) : String :=
  "moco-agent-" ++ c.namespaceName ++ "." ++ c.name

def headlessServiceName (c : MySQLCluster) : String := prefixedName c

def primaryServiceName (c : MySQLCluster) : String := prefixedName c ++ "-primary"

def replicaServiceName (c : MySQLCluster) : String := prefixedName c ++ "-replica"

def backupCronJobName (c : MySQLCluster) : String := "moco-backup-" ++ c.name

def backupRoleName (c : MySQLCluster) : String := "moco-backup-" ++ c.name

def restoreJobName (c : MySQLCluster) : String := "moco-restore-" ++ c.name

def restoreRoleName (c : MySQLCluster) : String := "moco-restore-" ++ c.name

def slowQueryLogAgentConfigMapName (c : MySQLCluster) : String :=
  "moco-slow-log-agent-config-" ++ c.name

/-- The label set of `labelSet` (controller-namespace objects additionally
carry the cluster namespace). Modelled from the spec for the key strings. -/
def labelSet (c : MySQLCluster) (controller : Bool) : List (String × String) :=
  let base := [("app.kubernetes.io/name", "mysql"),
               ("app.kubernetes.io/instance", c.name),
               ("app.kubernetes.io/created-by", "moco")]
  if controller then base ++ [("app.kubernetes.io/namespace", c.namespaceName)] else base

def rolePrimary : String := "primary"

def roleReplica : String := "replica"

def labelMocoRole : String := "moco.cybozu.com/role"

/-- `Reconcile` (lines 144-161): the newest reconciler version is selected
by default; when `status.reconcileInfo.generation == metadata.generation`
or the object is being deleted, the pinned `reconcileVersion` is honoured
(`0` means none pinned yet, so prefer the newest; `1` selects
`reconcileV1`; anything else falls back to the newest). The returned
number identifies the reconciler that will run; `1` is `reconcileV1`. -/
def newestReconcilerVersion : Int := 1

def selectReconcilerVersion (c : MySQLCluster) : Int :=
  let r0 : Int := newestReconcilerVersion
  if c.statusGeneration = c.generation ∨ c.deletionTimestamp then
    match c.statusReconcileVersion with
    | 0 => r0
    | 1 => 1
    | _ => r0
  else r0

/-- `bucketArgs` (lines 813-825), translated with Go's sequential
`args = append(args, …)` pattern. -/
def bucketArgs (bc : BucketConfig) : List String :=
  let args : List String := []
  let args := if bc.region ≠ "" then args ++ ["--region=" ++ bc.region] else args
  let args := if bc.endpointURL ≠ "" then args ++ ["--endpoint=" ++ bc.endpointURL] else args
  let args := if bc.usePathStyle then args ++ ["--use-path-style"] else args
  args ++ [bc.bucketName]

/-! ### ConfigMaps and the my.cnf reconcile step -/

structure ConfigMap where
  name : String
  labels : List (String × String)
  data : List (String × String)
deriving Repr, DecidableEq

/-- Go's `strings.HasPrefix s p`. -/
def hasPfx (s p : String) : Bool := decide (p.data <+: s.data)

/-- `mergeMap` (lines 81-93): keys of the second map win.  Maps are
association lists with unique keys; merge keeps entries of `m1` whose key
is not in `m2`, then all of `m2`. -/
def mergeMap (m1 m2 : List (String × String)) : List (String × String) :=
  m1.filter (fun kv => ¬ m2.any (fun kv2 => kv2.1 == kv.1)) ++ m2

/-- `ctrl.CreateOrUpdate` on a ConfigMap collection: replace the object
with the same name if it exists, otherwise create it. -/
def upsertCM : List ConfigMap → ConfigMap → List ConfigMap
  | [], cm => [cm]
  | c :: rest, cm =>
    if c.name = cm.name then cm :: rest else c :: upsertCM rest cm

/-- A rendering of `mycnf.Generate`: the `pkg/mycnf` package is outside
the reconciler sources, so the claims are stated for an arbitrary
generator taking the user override map (or `none`) and the memory
budget. -/
def MycnfGenerate : Type := Option (List (String × String)) → Int → String

def findMysqldContainer (c : MySQLCluster) : Option Container :=
  c.containers.find? (fun ct => ct.name == mysqldContainerName)

def mycnfConfigPfx (c : MySQLCluster) : String := prefixedName c ++ "."

/-- Look up the user override ConfigMap referenced by
`spec.mysqlConfigMapName` among the ConfigMaps of the cluster namespace;
a missing reference is an API `NotFound` error. -/
def fetchUserConf (c : MySQLCluster) (cms : List ConfigMap) :
    Except String (Option (List (String × String))) :=
  match c.mysqlConfigMapName with
  | none => .ok none
  | some n =>
    match cms.find? (fun cm => cm.name == n) with
    | none => .error ("configmap not found: " ++ n)
    | some cm => .ok (some cm.data)

/-- The rendered my.cnf text of a successful `reconcileV1MyCnf` run. -/
def renderedConf (g : MycnfGenerate) (c : MySQLCluster) (cms : List ConfigMap) :
    Option String :=
  match findMysqldContainer c with
  | none => none
  | some ct =>
    match fetchUserConf c cms with
    | .error _ => none
    | .ok userConf => some (g userConf (totalMemOf ct.resources))

/-- `reconcileV1MyCnf` (lines 344-423) acting on the ConfigMaps of the
cluster namespace: find the `mysqld` container (error when absent),
compute the memory budget, fetch the user override, render the
configuration, name the ConfigMap `<prefixedName>.<fnv32a hex>` and
create-or-update it, then delete every other ConfigMap whose name starts
with `<prefixedName>.`.  Returns the active ConfigMap and the new
ConfigMap collection. -/
def reconcileV1MyCnf (g : MycnfGenerate) (c : MySQLCluster)
    (cms : List ConfigMap) : Except String (ConfigMap × List ConfigMap) :=
  match findMysqldContainer c with
  | none => .error "MySQLD container not found"
  | some ct =>
    match fetchUserConf c cms with
    | .error e => .error e
    | .ok userConf =>
      let conf := g userConf (totalMemOf ct.resources)
      let suffix := hexDigest32 (fnv32a (stringBytes conf))
      let pfx := mycnfConfigPfx c
      let existing := cms.find? (fun cm => cm.name == pfx ++ suffix)
      let newCM : ConfigMap :=
        { name := pfx ++ suffix
          labels := mergeMap (match existing with | some old => old.labels | none => []) (labelSet c false)
          data := [("my.cnf", conf)] }
      let afterUpsert := upsertCM cms newCM
      let afterGC := afterUpsert.filter
        (fun old => ¬ (hasPfx old.name pfx ∧ old.name ≠ newCM.name))
      .ok (newCM, afterGC)

/-! ### Service reconciliation (`reconcileV1Service1`, lines 514-615)

The desired Service is an apply configuration built purely from the
cluster and the user template; the live object is fetched only afterwards
for the equality short-circuit.  We model the apply-extracted live
configuration as the previously applied desired object. -/

structure SvcPort where
  name : String
  port : Int
  targetPort : String
  nodePort : Int
deriving Repr, DecidableEq

structure DesiredService where
  name : String
  labels : List (String × String)
  annotations : List (String × String)
  headlessClusterIP : Bool
  publishNotReadyAddresses : Bool
  selector : List (String × String)
  ports : List SvcPort
deriving Repr, DecidableEq

/-- The loop of lines 542-550: scan the ports currently on the desired
object (those merged in from the template) and record the `NodePort`
values of the `mysql` and `mysqlx` ports.  Go dereferences `*p.Name` and
`*p.NodePort`, so a nil pointer is a panic, modelled as an error. -/
def readNodePorts : List PortTemplate → Int → Int → Except String (Int × Int)
  | [], m, x => .ok (m, x)
  | p :: rest, m, x =>
    match p.name with
    | none => .error "nil pointer dereference"
    | some n =>
      if n = mysqlPortName then
        match p.nodePort with
        | none => .error "nil pointer dereference"
        | some v => readNodePorts rest v x
      else if n = mysqlXPortName then
        match p.nodePort with
        | none => .error "nil pointer dereference"
        | some v => readNodePorts rest m v
      else readNodePorts rest m x

/-- The ports present on the desired Service before the operator
overwrites them: the template's ports when the Service is not headless
and a template with a spec was given, none otherwise. -/
def templatePorts (template : Option ServiceTemplate) (headless : Bool) :
    List PortTemplate :=
  if ¬ headless then
    match template with
    | some t => match t.spec with | some sp => sp.ports | none => []
    | none => []
  else []

/-- Desired-object construction of `reconcileV1Service1` (lines 517-565):
merge the template (annotations, labels, spec) for non-headless services,
add the cluster label set, force headless fields, set the selector, read
the NodePorts off the template-derived ports, and overwrite the ports
with the fixed `mysql`/`mysqlx` pair carrying those NodePorts. -/
def buildV1Service (c : MySQLCluster) (template : Option ServiceTemplate)
    (name : String) (headless : Bool) (selector : List (String × String)) :
    Except String DesiredService :=
  let labels :=
    if ¬ headless ∧ template.isSome then
      mergeMap (match template with | some t => t.labels | none => []) (labelSet c false)
    else labelSet c false
  let annotations :=
    if ¬ headless ∧ template.isSome then
      (match template with | some t => t.annotations | none => [])
    else []
  match readNodePorts (templatePorts template headless) 0 0 with
  | .error e => .error e
  | .ok (mysqlNodePort, mysqlXNodePort) =>
    .ok { name := name
          labels := labels
          annotations := annotations
          headlessClusterIP := headless
          publishNotReadyAddresses := headless
          selector := selector
          ports := [{ name := mysqlPortName, port := mysqlPortNumber,
                      targetPort := mysqlPortName, nodePort := mysqlNodePort },
                    { name := mysqlXPortName, port := mysqlXPortNumber,
                      targetPort := mysqlXPortName, nodePort := mysqlXNodePort }] }

/-- Whole-step model of `reconcileV1Service1`: build the desired object,
fetch the live Service, short-circuit when the extracted live apply
configuration equals the desired one, otherwise issue the server-side
apply.  The live state is modelled by the last applied configuration
together with the live port list (which carries server-assigned
NodePorts).  Returns the new last-applied configuration. -/
structure LiveService where
  applied : DesiredService
  livePorts : List SvcPort
deriving Repr, DecidableEq

def reconcileV1Service1 (c : MySQLCluster) (template : Option ServiceTemplate)
    (name : String) (headless : Bool) (selector : List (String × String))
    (live : Option LiveService) : Except String (Option LiveService) :=
  match buildV1Service c template name headless selector with
  | .error e => .error e
  | .ok svc =>
    match live with
    | some l =>
      if l.applied = svc then .ok (some l)
      else .ok (some { applied := svc, livePorts := svc.ports })
    | none => .ok (some { applied := svc, livePorts := svc.ports })

/-- The NodePort recorded on a live Service for a named port, `0` when the
port is absent. -/
def liveNodePort (l : LiveService) (portName : String) : Int :=
  match l.livePorts.find? (fun p => p.name == portName) with
  | some p => p.nodePort
  | none => 0

/-! ### PodDisruptionBudget (`reconcileV1PDB`, lines 779-811) -/

structure PDBObject where
  name : String
  labels : List (String × String)
  maxUnavailable : Int
  selector : List (String × String)
deriving Repr, DecidableEq

/-- `reconcileV1PDB`: when `spec.replicas < 3` delete the PDB named
`prefixedName` ignoring not-found; otherwise create-or-update it with
`maxUnavailable = replicas / 2` (Go integer division) and the cluster
label set as selector. -/
def reconcileV1PDB (c : MySQLCluster) (pdb : Option PDBObject) :
    Except String Unit × Option PDBObject :=
  if c.replicas < 3 then
    (.ok (), none)
  else
    let existingLabels := match pdb with | some p => p.labels | none => []
    (.ok (), some { name := prefixedName c
                    labels := mergeMap existingLabels (labelSet c false)
                    maxUnavailable := c.replicas.tdiv 2
                    selector := labelSet c false })

/-! ### Operation traces -/

/-- API-server and clustering-manager operations performed during a
reconcile, for frame-effect claims. -/
inductive KOp where
  | stopManager
  | updateManager
  | getObj (kind objName : String)
  | createObj (kind objName : String)
  | createOrUpdateObj (kind objName : String)
  | applyObj (kind objName : String)
  | deleteObj (kind objName : String)
  | updateCluster
  | updateClusterStatus
deriving Repr, DecidableEq

/-! ### Backup job reconciliation (`reconcileV1BackupJob`, lines 827-1015) -/

structure CronJobObject where
  name : String
  labels : List (String × String)
  schedule : String
  args : List String
  serviceAccountName : String
deriving Repr, DecidableEq

structure BackupPolicyObject where
  name : String
  schedule : String
  serviceAccountName : String
  threads : Int
  bucketConfig : BucketConfig
deriving Repr, DecidableEq

structure BackupState where
  cronJob : Option CronJobObject
  role : Bool
  roleBinding : Bool
  policies : List BackupPolicyObject
deriving Repr, DecidableEq

/-- Fault injection for the individual API calls of the policy-absent
branch, modelling API failures other than `NotFound`. -/
structure BackupFaults where
  getCronJob : Bool
  deleteCronJob : Bool
  getRole : Bool
  deleteRole : Bool
  getRoleBinding : Bool
  deleteRoleBinding : Bool
deriving Repr, DecidableEq

def noBackupFaults : BackupFaults :=
  { getCronJob := false, deleteCronJob := false, getRole := false,
    deleteRole := false, getRoleBinding := false, deleteRoleBinding := false }

/-- The `Get`-then-`Delete` pattern used for each object of the
policy-absent branch: `Get`; on success `Delete` (propagating its error);
on `NotFound` succeed; on any other `Get` error propagate it.  The slot
is `true` when the object currently exists; the two fault flags inject
non-`NotFound` errors into `Get` and `Delete`. -/
def deleteIfExists (exists_ : Bool) (getFault deleteFault : Bool) :
    Except String Unit × Bool :=
  if getFault then (.error "get failed", exists_)
  else if exists_ then
    if deleteFault then (.error "delete failed", exists_) else (.ok (), false)
  else (.ok (), false)

/-- The backup container arguments (lines 900-902). -/
def backupArgs (c : MySQLCluster) (bp : BackupPolicyObject) : List String :=
  [backupSubcommand, "--threads=" ++ toString bp.threads] ++
  bucketArgs bp.bucketConfig ++ [c.namespaceName, c.name]

/-- `reconcileV1BackupJob`: with `spec.backupPolicyName` nil, delete the
CronJob, Role and RoleBinding with the `Get`-then-`Delete` pattern; with a
policy set, fetch it (error when missing) and create-or-update the
CronJob, Role and RoleBinding derived from it. -/
def reconcileV1BackupJob (c : MySQLCluster) (s : BackupState)
    (f : BackupFaults) : Except String Unit × BackupState :=
  match c.backupPolicyName with
  | none =>
    match deleteIfExists s.cronJob.isSome f.getCronJob f.deleteCronJob with
    | (.error e, _) => (.error e, s)
    | (.ok _, _) =>
      let s1 := { s with cronJob := none }
      match deleteIfExists s1.role f.getRole f.deleteRole with
      | (.error e, _) => (.error e, s1)
      | (.ok _, _) =>
        let s2 := { s1 with role := false }
        match deleteIfExists s2.roleBinding f.getRoleBinding f.deleteRoleBinding with
        | (.error e, _) => (.error e, s2)
        | (.ok _, _) => (.ok (), { s2 with roleBinding := false })
  | some bpName =>
    match s.policies.find? (fun bp => bp.name == bpName) with
    | none => (.error ("failed to get backup policy " ++ bpName), s)
    | some bp =>
      let existingLabels := match s.cronJob with | some cj => cj.labels | none => []
      let cj : CronJobObject :=
        { name := backupCronJobName c
          labels := mergeMap existingLabels
            [("app.kubernetes.io/name", "mysql-backup"),
             ("app.kubernetes.io/instance", c.name),
             ("app.kubernetes.io/created-by", "moco")]
          schedule := bp.schedule
          args := backupArgs c bp
          serviceAccountName := bp.serviceAccountName }
      (.ok (), { s with cronJob := some cj, role := true, roleBinding := true })

/-! ### Restore job reconciliation (`reconcileV1RestoreJob`, lines 1017-1161) -/

structure JobObject where
  name : String
  backoffLimit : Int
  args : List String
  serviceAccountName : String
deriving Repr, DecidableEq

structure RestoreState where
  job : Option JobObject
  role : Bool
  roleBinding : Bool
deriving Repr, DecidableEq

/-- The restore container arguments (lines 1054-1058). -/
def restoreArgs (c : MySQLCluster) (rs : RestoreSpec) : List String :=
  [restoreSubcommand, "--threads=" ++ toString rs.jobConfig.threads] ++
  bucketArgs rs.jobConfig.bucketConfig ++
  [rs.sourceNamespace, rs.sourceName, c.namespaceName, c.name,
   rs.restorePointFormatted]

/-- `reconcileV1RestoreJob`: return immediately when `spec.restore` is
nil, and likewise when `status.restoredTime` is already set (the restore
already finished).  Otherwise fetch the restore Job, create it when
absent, and in either case create-or-update the restore Role and
RoleBinding (owned by the Job).  The third component records every API
operation performed. -/
def reconcileV1RestoreJob (c : MySQLCluster) (s : RestoreState) :
    Except String Unit × RestoreState × List KOp :=
  match c.restore with
  | none => (.ok (), s, [])
  | some rs =>
    if c.statusRestoredTime then (.ok (), s, [])
    else
      let getOps := [KOp.getObj "Job" (restoreJobName c)]
      let (s1, createOps) :=
        match s.job with
        | some _ => (s, [])
        | none =>
          ({ s with job := some { name := restoreJobName c
                                  backoffLimit := 0
                                  args := restoreArgs c rs
                                  serviceAccountName := rs.jobConfig.serviceAccountName } },
           [KOp.createObj "Job" (restoreJobName c)])
      let s2 := { s1 with role := true, roleBinding := true }
      (.ok (), s2,
       getOps ++ createOps ++
       [KOp.createOrUpdateObj "Role" (restoreRoleName c),
        KOp.createOrUpdateObj "RoleBinding" (restoreRoleName c)])

/-! ### The reconcileV1 pipeline (lines 163-253)

The state of the cluster namespace plus the two controller-namespace
artefacts.  Children whose inner structure no claim depends on are
existence flags. -/

structure StatefulSetObject where
  name : String
  replicas : Int
  mycnfName : String
  serviceAccountName : String
deriving Repr, DecidableEq

structure KState where
  controllerSecret : Bool
  certificate : Bool
  userSecret : Bool
  mycnfSecret : Bool
  grpcSecret : Bool
  configMaps : List ConfigMap
  serviceAccount : Bool
  headlessSvc : Option LiveService
  primarySvc : Option LiveService
  replicaSvc : Option LiveService
  statefulSet : Option StatefulSetObject
  pdb : Option PDBObject
  backup : BackupState
  restoreSt : RestoreState
deriving Repr, DecidableEq

def StepResult : Type := Except String Unit × KState × List KOp

/-- Sequence two reconcile steps, stopping on the first error as
`reconcileV1` does. -/
def stepSeq (r : StepResult) (next : KState → StepResult) : StepResult :=
  match r with
  | (.error e, s, ops) => (.error e, s, ops)
  | (.ok _, s, ops) =>
    match next s with
    | (a, s2, ops2) => (a, s2, ops ++ ops2)

/-- `reconcileV1Secret` (lines 255-342): read the controller-namespace
master secret; when present, project and create-or-update the user and
my.cnf secrets; when absent, generate a new password bundle and create
all three.  Credential contents are not modelled, only existence. -/
def stepSecret (c : MySQLCluster) (s : KState) : StepResult :=
  let ops0 := [KOp.getObj "Secret" (controllerSecretName c)]
  if s.controllerSecret then
    (.ok (), { s with userSecret := true, mycnfSecret := true },
     ops0 ++ [KOp.createOrUpdateObj "Secret" (userSecretName c),
              KOp.createOrUpdateObj "Secret" (myCnfSecretName c)])
  else
    (.ok (), { s with controllerSecret := true, userSecret := true, mycnfSecret := true },
     ops0 ++ [KOp.createObj "Secret" (controllerSecretName c),
              KOp.createObj "Secret" (userSecretName c),
              KOp.createObj "Secret" (myCnfSecretName c)])

/-- Modelled from the spec: `reconcileV1Certificate` is not among the
provided sources; per spec section 4.2 it ensures the agent certificate
request in the operator namespace. -/
def stepCertificate (c : MySQLCluster) (s : KState) : StepResult :=
  (.ok (), { s with certificate := true },
   [KOp.createOrUpdateObj "Certificate" (certificateName c)])

/-- Modelled from the spec: `reconcileV1GRPCSecret` is not among the
provided sources; per spec section 4.2 it ensures the gRPC certificate
secret in the cluster namespace (its exact name is not specified). -/
def grpcSecretName (c : MySQLCluster) : String := "moco-" ++ c.name ++ "-grpc"

def stepGRPCSecret (c : MySQLCluster) (s : KState) : StepResult :=
  (.ok (), { s with grpcSecret := true },
   [KOp.createOrUpdateObj "Secret" (grpcSecretName c)])

/-- The my.cnf step inside the pipeline; on success the active ConfigMap
is handed to the StatefulSet step. -/
def stepMyCnf (g : MycnfGenerate) (c : MySQLCluster) (s : KState) :
    Except String ConfigMap × KState × List KOp :=
  match reconcileV1MyCnf g c s.configMaps with
  | .error e => (.error e, s, [])
  | .ok (cm, cms) =>
    (.ok cm, { s with configMaps := cms },
     [KOp.createOrUpdateObj "ConfigMap" cm.name])

/-- The fluent-bit configuration text (lines 428-441); braces are escaped
as \x7b and \x7d. -/
def fluentBitConfigText : String :=
  "[SERVICE]\n  Log_Level      error\n[INPUT]\n  Name           tail\n  Path           /var/log/mysql/mysql.slow.log\n  Read_from_Head true\n[OUTPUT]\n  Name           file\n  Match          *\n  Path           /dev\n  File           stdout\n  Format         template\n  Template       \x7blog\x7d\n"

/-- `reconcileV1FluentBitConfigMap` (lines 425-472): create-or-update the
slow-query-log agent ConfigMap unless the sidecar is disabled, in which
case delete it ignoring not-found. -/
def stepFluentBit (c : MySQLCluster) (s : KState) : StepResult :=
  let cmName := slowQueryLogAgentConfigMapName c
  if ¬ c.disableSlowQueryLogContainer then
    let existing := s.configMaps.find? (fun cm => cm.name == cmName)
    let newCM : ConfigMap :=
      { name := cmName
        labels := mergeMap (match existing with | some old => old.labels | none => [])
                           (labelSet c false)
        data := [("fluent-bit.conf", fluentBitConfigText)] }
    (.ok (), { s with configMaps := upsertCM s.configMaps newCM },
     [KOp.createOrUpdateObj "ConfigMap" cmName])
  else
    (.ok (), { s with configMaps := s.configMaps.filter (fun cm => cm.name ≠ cmName) },
     [KOp.deleteObj "ConfigMap" cmName])

/-- `reconcileV1ServiceAccount` (lines 474-493). -/
def stepServiceAccount (c : MySQLCluster) (s : KState) : StepResult :=
  (.ok (), { s with serviceAccount := true },
   [KOp.createOrUpdateObj "ServiceAccount" (prefixedName c)])

/-- `reconcileV1Service` (lines 495-512): the headless service, then the
primary and replica services with role-extended selectors. -/
def stepServices (c : MySQLCluster) (s : KState) : StepResult :=
  let primarySelector := labelSet c false ++ [(labelMocoRole, rolePrimary)]
  let replicaSelector := labelSet c false ++ [(labelMocoRole, roleReplica)]
  match reconcileV1Service1 c none (headlessServiceName c) true (labelSet c false)
      s.headlessSvc with
  | .error e => (.error e, s, [KOp.applyObj "Service" (headlessServiceName c)])
  | .ok h =>
    let s1 := { s with headlessSvc := h }
    match reconcileV1Service1 c c.primaryServiceTemplate (primaryServiceName c) false
        primarySelector s1.primarySvc with
    | .error e => (.error e, s1,
        [KOp.applyObj "Service" (headlessServiceName c),
         KOp.applyObj "Service" (primaryServiceName c)])
    | .ok p =>
      let s2 := { s1 with primarySvc := p }
      match reconcileV1Service1 c c.replicaServiceTemplate (replicaServiceName c) false
          replicaSelector s2.replicaSvc with
      | .error e => (.error e, s2,
          [KOp.applyObj "Service" (headlessServiceName c),
           KOp.applyObj "Service" (primaryServiceName c),
           KOp.applyObj "Service" (replicaServiceName c)])
      | .ok rp =>
        (.ok (), { s2 with replicaSvc := rp },
         [KOp.applyObj "Service" (headlessServiceName c),
          KOp.applyObj "Service" (primaryServiceName c),
          KOp.applyObj "Service" (replicaServiceName c)])

/-- `reconcileV1StatefulSet` (lines 617-777), reduced to the fields the
claims touch: the StatefulSet exists, carries the spec replica count, the
active my.cnf ConfigMap name and the cluster ServiceAccount.  The mysqld
container lookup of `makeV1MySQLDContainer` fails when the container is
missing. -/
def stepStatefulSet (c : MySQLCluster) (mycnf : ConfigMap) (s : KState) : StepResult :=
  match findMysqldContainer c with
  | none => (.error "MySQLD container not found", s, [])
  | some _ =>
    (.ok (), { s with statefulSet := some { name := prefixedName c
                                            replicas := c.replicas
                                            mycnfName := mycnf.name
                                            serviceAccountName := prefixedName c } },
     [KOp.applyObj "StatefulSet" (prefixedName c)])

def stepPDB (c : MySQLCluster) (s : KState) : StepResult :=
  match reconcileV1PDB c s.pdb with
  | (a, pdb) =>
    (a, { s with pdb := pdb },
     if c.replicas < 3 then [KOp.deleteObj "PodDisruptionBudget" (prefixedName c)]
     else [KOp.createOrUpdateObj "PodDisruptionBudget" (prefixedName c)])

def stepBackup (c : MySQLCluster) (s : KState) : StepResult :=
  match reconcileV1BackupJob c s.backup noBackupFaults with
  | (a, bs) => (a, { s with backup := bs },
      [KOp.getObj "CronJob" (backupCronJobName c)])

def stepRestore (c : MySQLCluster) (s : KState) : StepResult :=
  match reconcileV1RestoreJob c s.restoreSt with
  | (a, rs, ops) => (a, { s with restoreSt := rs }, ops)

/-- `reconcileV1` (lines 163-253).  Deletion branch: without the
finalizer return immediately; with it, stop the clustering manager,
delete the controller-namespace secret and certificate (`finalizeV1`,
lines 1163-1181), and update the cluster to drop the finalizer.
Otherwise run the eleven reconcile steps in order, stopping at the first
error, then write `status.reconcileInfo` when the generation advanced and
notify the clustering manager. -/
def reconcileV1 (g : MycnfGenerate) (c : MySQLCluster) (s : KState) : StepResult :=
  if c.deletionTimestamp then
    if mysqlClusterFinalizer ∈ c.finalizers then
      (.ok (), { s with controllerSecret := false, certificate := false },
       [KOp.stopManager,
        KOp.deleteObj "Secret" (controllerSecretName c),
        KOp.deleteObj "Certificate" (certificateName c),
        KOp.updateCluster])
    else (.ok (), s, [])
  else
    let r1 := stepSeq (stepSecret c s) (stepCertificate c)
    let r2 := stepSeq r1 (stepGRPCSecret c)
    match r2 with
    | (.error e, s2, ops) => (.error e, s2, ops)
    | (.ok _, s2, ops) =>
      match stepMyCnf g c s2 with
      | (.error e, s3, ops3) => (.error e, s3, ops ++ ops3)
      | (.ok mycnf, s3, ops3) =>
        let r4 := stepSeq (.ok (), s3, ops ++ ops3) (stepFluentBit c)
        let r5 := stepSeq r4 (stepServiceAccount c)
        let r6 := stepSeq r5 (stepServices c)
        let r7 := stepSeq r6 (stepStatefulSet c mycnf)
        let r8 := stepSeq r7 (stepPDB c)
        let r9 := stepSeq r8 (stepBackup c)
        let r10 := stepSeq r9 (stepRestore c)
        match r10 with
        | (.error e, sF, opsF) => (.error e, sF, opsF)
        | (.ok _, sF, opsF) =>
          let statusOps :=
            if c.statusGeneration ≠ c.generation then [KOp.updateClusterStatus] else []
          (.ok (), sF, opsF ++ statusOps ++ [KOp.updateManager])

/-! ### Sample data used by witnesses and counterexamples -/

def sampleCluster : MySQLCluster :=
  { name := "test"
    namespaceName := "default"
    generation := 3
    statusGeneration := 3
    statusReconcileVersion := 1
    deletionTimestamp := false
    finalizers := [mysqlClusterFinalizer]
    replicas := 3
    containers := [{ name := "mysqld", resources := none }]
    mysqlConfigMapName := none
    backupPolicyName := none
    restore := none
    statusRestoredTime := false
    disableSlowQueryLogContainer := false
    primaryServiceTemplate := none
    replicaServiceTemplate := none }

/-! ### Helper lemmas -/

theorem selectReconcilerVersion_eq_one (c : MySQLCluster) :
    selectReconcilerVersion c = 1 := by
  unfold selectReconcilerVersion newestReconcilerVersion
  split
  · split <;> rfl
  · rfl

theorem deleteIfExists_no_fault (e : Bool) :
    deleteIfExists e false false = (.ok (), false) := by
  cases e <;> rfl

/-! ### C1 -/

/-- C1: for every `MySQLCluster` fetched by `Reconcile`, if
`status.reconcileInfo.generation` equals the object generation then the
pinned `reconcileVersion` is used (version `1` selects `reconcileV1`),
and if the generations differ the newest reconciler version
(`newestReconcilerVersion = 1`, i.e. `reconcileV1`) is used. -/
theorem reconcile_selects_pinned_or_newest_version (c : MySQLCluster) :
    (c.statusGeneration = c.generation → c.statusReconcileVersion = 1 →
        selectReconcilerVersion c = 1)
    ∧ (c.statusGeneration ≠ c.generation →
        selectReconcilerVersion c = newestReconcilerVersion) := by
  refine ⟨fun _ _ => selectReconcilerVersion_eq_one c,
          fun _ => ?_⟩
  rw [selectReconcilerVersion_eq_one c]
  rfl

/-- Witness for C1 at concrete clusters: one with the generation pinned
to version 1, one whose generation has advanced. -/
theorem reconcile_selects_pinned_or_newest_version_witness :
    selectReconcilerVersion sampleCluster = 1
    ∧ selectReconcilerVersion { sampleCluster with generation := 4 }
        = newestReconcilerVersion :=
  ⟨(reconcile_selects_pinned_or_newest_version sampleCluster).1 rfl rfl,
   (reconcile_selects_pinned_or_newest_version
      { sampleCluster with generation := 4 }).2 (by decide)⟩

/-! ### C8 -/

/-- C8: for every `mysqld` container resource specification, the memory
budget computed by `reconcileV1MyCnf` (`totalMemOf`, translated from the
source) equals `requests.memory` when set and non-zero, otherwise
`limits.memory` when set and non-zero, otherwise zero
(`specMemoryBudget`, written from the spec text); in particular
`requests.memory` takes precedence whenever both are set and non-zero. -/
theorem memory_budget_prefers_requests (res : Option GoResources) :
    totalMemOf res = specMemoryBudget res := by
  match res with
  | none => rfl
  | some r =>
    rcases r with ⟨lim, req⟩
    rcases lim with _ | l <;> rcases req with _ | q
    all_goals simp [totalMemOf, specMemoryBudget]

/-! ### C9 -/

/-- C9: for every `BucketConfig`, `bucketArgs` returns `--region=<r>`
only when `region` is non-empty, then `--endpoint=<u>` only when
`endpointURL` is non-empty, then `--use-path-style` only when
`usePathStyle` is set, in that order, always terminated by the bucket
name. -/
theorem bucket_args_shape (bc : BucketConfig) :
    bucketArgs bc =
      (if bc.region ≠ "" then ["--region=" ++ bc.region] else []) ++
      (if bc.endpointURL ≠ "" then ["--endpoint=" ++ bc.endpointURL] else []) ++
      (if bc.usePathStyle then ["--use-path-style"] else []) ++
      [bc.bucketName] := by
  unfold bucketArgs
  split_ifs <;> simp

/-! ### C5 -/

/-- C5: for every cluster with `spec.replicas < 3`, `reconcileV1PDB`
deletes any existing PodDisruptionBudget named with the cluster's
prefixed name (not-found included) and succeeds, so none exists
afterwards; with `spec.replicas >= 3` it ensures a PDB named with the
prefixed name whose `maxUnavailable` is `replicas / 2` (Go integer
division, `Int.tdiv`) and whose selector is the cluster label set. -/
theorem pdb_deleted_below_three_replicas (c : MySQLCluster) (pdb : Option PDBObject) :
    (c.replicas < 3 → reconcileV1PDB c pdb = (.ok (), none))
    ∧ (3 ≤ c.replicas → ∃ p, reconcileV1PDB c pdb = (.ok (), some p)
        ∧ p.name = prefixedName c
        ∧ p.maxUnavailable = c.replicas.tdiv 2
        ∧ p.selector = labelSet c false) := by
  constructor
  · intro h
    simp [reconcileV1PDB, h]
  · intro h
    have h3 : ¬ c.replicas < 3 := by omega
    simp only [reconcileV1PDB, if_neg h3]
    exact ⟨_, rfl, rfl, rfl, rfl⟩

/-- Witness for C5 at concrete clusters with 2 and 5 replicas and an
existing PDB. -/
theorem pdb_deleted_below_three_replicas_witness :
    reconcileV1PDB { sampleCluster with replicas := 2 }
        (some { name := "moco-test", labels := [], maxUnavailable := 1,
                selector := [] }) = (.ok (), none)
    ∧ ∃ p, reconcileV1PDB { sampleCluster with replicas := 5 } none = (.ok (), some p)
        ∧ p.name = prefixedName { sampleCluster with replicas := 5 }
        ∧ p.maxUnavailable = Int.tdiv 5 2
        ∧ p.selector = labelSet { sampleCluster with replicas := 5 } false :=
  ⟨(pdb_deleted_below_three_replicas _ _).1 (by decide),
   (pdb_deleted_below_three_replicas { sampleCluster with replicas := 5 } none).2
     (by decide)⟩

/-! ### C6 -/

/-- C6: for every cluster with `spec.restore` set and
`status.restoredTime` non-nil, `reconcileV1RestoreJob` returns success
immediately: the state (restore Job, Role and RoleBinding) is unchanged
and the operation trace is empty, so no read or write of any of those
objects is performed. -/
theorem restore_is_fire_once (c : MySQLCluster) (s : RestoreState) (rs : RestoreSpec)
    (h1 : c.restore = some rs) (h2 : c.statusRestoredTime = true) :
    reconcileV1RestoreJob c s = (.ok (), s, []) := by
  unfold reconcileV1RestoreJob
  rw [h1]
  simp [h2]

/-- Witness for C6: a concrete restored cluster with the restore Job
still present; the step leaves everything untouched. -/
theorem restore_is_fire_once_witness :
    reconcileV1RestoreJob
      { sampleCluster with
          restore := some { sourceName := "src", sourceNamespace := "ns",
                            restorePointFormatted := "20060102-150405",
                            jobConfig := { serviceAccountName := "sa", threads := 4,
                                           bucketConfig := { bucketName := "b", region := "",
                                                             endpointURL := "",
                                                             usePathStyle := false } } }
          statusRestoredTime := true }
      { job := some { name := "moco-restore-test", backoffLimit := 0, args := [],
                      serviceAccountName := "sa" },
        role := true, roleBinding := true }
    = (.ok (),
       { job := some { name := "moco-restore-test", backoffLimit := 0, args := [],
                       serviceAccountName := "sa" },
         role := true, roleBinding := true }, []) :=
  restore_is_fire_once _ _ _ rfl rfl

/-! ### C7 -/

/-- C7: for every cluster with `spec.backupPolicyName` nil,
`reconcileV1BackupJob` deletes the backup CronJob, Role and RoleBinding
when they exist and succeeds even when any of them is already absent
(not-found is not an error): without injected API faults the result is
success with all three gone, and an error can only arise from an
injected non-not-found API failure. -/
theorem backup_policy_absent_deletes_children (c : MySQLCluster) (s : BackupState)
    (h : c.backupPolicyName = none) :
    reconcileV1BackupJob c s noBackupFaults =
      (.ok (), { cronJob := none, role := false, roleBinding := false,
                 policies := s.policies })
    ∧ ∀ (f : BackupFaults) (e : String),
        (reconcileV1BackupJob c s f).1 = .error e → f ≠ noBackupFaults := by
  have hmain : reconcileV1BackupJob c s noBackupFaults =
      (.ok (), { cronJob := none, role := false, roleBinding := false,
                 policies := s.policies }) := by
    unfold reconcileV1BackupJob
    rw [h]
    simp [noBackupFaults, deleteIfExists_no_fault]
  refine ⟨hmain, fun f e herr hf => ?_⟩
  rw [hf, hmain] at herr
  exact Except.noConfusion herr

/-- Witness for C7: a concrete cluster without a backup policy whose
CronJob and Role exist but whose RoleBinding is already absent. -/
theorem backup_policy_absent_deletes_children_witness :
    reconcileV1BackupJob sampleCluster
        { cronJob := some { name := "moco-backup-test", labels := [], schedule := "@daily",
                            args := [], serviceAccountName := "sa" },
          role := true, roleBinding := false, policies := [] }
        noBackupFaults
      = (.ok (), { cronJob := none, role := false, roleBinding := false, policies := [] })
    ∧ ∀ (f : BackupFaults) (e : String),
        (reconcileV1BackupJob sampleCluster
          { cronJob := some { name := "moco-backup-test", labels := [], schedule := "@daily",
                              args := [], serviceAccountName := "sa" },
            role := true, roleBinding := false, policies := [] } f).1 = .error e
        → f ≠ noBackupFaults :=
  backup_policy_absent_deletes_children sampleCluster _ rfl

/-! ### C2: lemmas about upsert and garbage collection -/

theorem upsertCM_filter_name (cms : List ConfigMap) (cm : ConfigMap)
    (hnd : (cms.map ConfigMap.name).Nodup) :
    (upsertCM cms cm).filter (fun x => x.name == cm.name) = [cm] := by
  induction cms with
  | nil => simp [upsertCM]
  | cons hd tl ih =>
    rw [List.map_cons, List.nodup_cons] at hnd
    obtain ⟨hhd, htl⟩ := hnd
    unfold upsertCM
    by_cases he : hd.name = cm.name
    · rw [if_pos he]
      have htlnil : tl.filter (fun x => x.name == cm.name) = [] := by
        rw [List.filter_eq_nil_iff]
        intro x hx
        have : x.name ∈ tl.map ConfigMap.name := List.mem_map_of_mem _ hx
        simp only [beq_iff_eq]
        intro hxeq
        exact hhd (by rw [he, ← hxeq]; exact this)
      simp [htlnil]
    · rw [if_neg he]
      have : (hd.name == cm.name) = false := by simp [he]
      simp only [List.filter_cons, this, Bool.false_eq_true, if_neg]
      exact ih htl

theorem filter_pfx_of_upsert_gc (cms : List ConfigMap) (cm : ConfigMap) (pfx : String)
    (hnd : (cms.map ConfigMap.name).Nodup)
    (hp : hasPfx cm.name pfx = true) :
    ((upsertCM cms cm).filter
        (fun old => ¬ (hasPfx old.name pfx ∧ old.name ≠ cm.name))).filter
      (fun x => hasPfx x.name pfx) = [cm] := by
  rw [List.filter_filter]
  rw [← upsertCM_filter_name cms cm hnd]
  apply List.filter_congr
  intro x _
  by_cases hx : x.name = cm.name
  · simp [hx, hp]
  · by_cases hpx : hasPfx x.name pfx = true
    · simp [hx, hpx]
    · simp at hpx
      simp [hx, hpx]

theorem hasPfx_append (p s : String) : hasPfx (p ++ s) p = true := by
  have h : p.data <+: (p ++ s).data := List.prefix_append _ _
  simp [hasPfx, h]

/-! ### C2 -/

/-- C2: for every cluster, every my.cnf generator and every ConfigMap
collection with unique names, when `reconcileV1MyCnf` returns success the
active ConfigMap's name is the cluster's prefixed name, a dot
(`mycnfConfigPfx`), and the hex FNV-32a digest of the rendered
configuration text, and the resulting collection contains exactly one
ConfigMap whose name starts with that prefix — the active one; every
other one has been deleted. -/
theorem mycnf_active_configmap_content_addressed_and_unique
    (g : MycnfGenerate) (c : MySQLCluster) (cms cms2 : List ConfigMap) (cm : ConfigMap)
    (hnd : (cms.map ConfigMap.name).Nodup)
    (h : reconcileV1MyCnf g c cms = .ok (cm, cms2)) :
    (∃ conf, renderedConf g c cms = some conf ∧
        cm.name = mycnfConfigPfx c ++ hexDigest32 (fnv32a (stringBytes conf)))
    ∧ cms2.filter (fun x => hasPfx x.name (mycnfConfigPfx c)) = [cm] := by
  cases hct : findMysqldContainer c with
  | none =>
    rw [show reconcileV1MyCnf g c cms = .error "MySQLD container not found" by
          unfold reconcileV1MyCnf; rw [hct]] at h
    exact absurd h (by simp)
  | some ct =>
    cases hfc : fetchUserConf c cms with
    | error e =>
      rw [show reconcileV1MyCnf g c cms = .error e by
            unfold reconcileV1MyCnf; rw [hct, hfc]] at h
      exact absurd h (by simp)
    | ok userConf =>
      have hconf : renderedConf g c cms = some (g userConf (totalMemOf ct.resources)) := by
        unfold renderedConf
        rw [hct, hfc]
      set conf := g userConf (totalMemOf ct.resources) with hconfdef
      set pfx := mycnfConfigPfx c with hpfxdef
      set nm := pfx ++ hexDigest32 (fnv32a (stringBytes conf)) with hnmdef
      set newCM : ConfigMap :=
        { name := nm
          labels := mergeMap
            (match cms.find? (fun x => x.name == nm) with
             | some old => old.labels | none => []) (labelSet c false)
          data := [("my.cnf", conf)] } with hnewdef
      have hval : reconcileV1MyCnf g c cms =
          .ok (newCM, (upsertCM cms newCM).filter
            (fun old => ¬ (hasPfx old.name pfx ∧ old.name ≠ newCM.name))) := by
        unfold reconcileV1MyCnf
        rw [hct, hfc]
      rw [hval] at h
      have h12 := Except.ok.inj h
      injection h12 with h1 h2
      subst h1
      subst h2
      refine ⟨⟨conf, hconf, rfl⟩, ?_⟩
      exact filter_pfx_of_upsert_gc cms newCM pfx hnd (hasPfx_append pfx _)

def gWitness : MycnfGenerate := fun _ _ => "cfg"

def cmWitness : ConfigMap :=
  { name := mycnfConfigPfx sampleCluster ++ hexDigest32 (fnv32a (stringBytes "cfg"))
    labels := mergeMap [] (labelSet sampleCluster false)
    data := [("my.cnf", "cfg")] }

/-- Witness for C2: a concrete run of `reconcileV1MyCnf` on an empty
namespace with a constant generator. -/
theorem mycnf_active_configmap_witness :
    (∃ conf, renderedConf gWitness sampleCluster [] = some conf ∧
        cmWitness.name = mycnfConfigPfx sampleCluster ++
          hexDigest32 (fnv32a (stringBytes conf)))
    ∧ [cmWitness].filter (fun x => hasPfx x.name (mycnfConfigPfx sampleCluster))
        = [cmWitness] :=
  mycnf_active_configmap_content_addressed_and_unique gWitness sampleCluster []
    [cmWitness] cmWitness (by simp) (by rfl)

/-! ### C3 -/

/-- The NodePort the applied Service ends up with for a named port
(`none` when the reconcile failed or skipped the write). -/
def appliedNodePortAfter (r : Except String (Option LiveService)) (portName : String) :
    Option Int :=
  match r with
  | .ok (some l) => some (liveNodePort l portName)
  | _ => none

def c3Live : LiveService :=
  { applied := { name := "moco-test-primary", labels := [("stale", "1")], annotations := [],
                 headlessClusterIP := false, publishNotReadyAddresses := false,
                 selector := [], ports := [] }
    livePorts := [{ name := "mysql", port := 3306, targetPort := "mysql", nodePort := 30001 },
                  { name := "mysqlx", port := 33060, targetPort := "mysqlx", nodePort := 30002 }] }

/-- Counterexample to C3: a primary Service whose live object carries the
server-assigned NodePort `30001` on the `mysql` port, while the cluster
has no primary service template.  `reconcileV1Service1` reads the
NodePorts from the template-derived object (lines 542-550) — not from
the live object, which is fetched only afterwards (line 580) — so the
applied Service carries NodePort `0`, clearing the previously assigned
value instead of preserving it. -/
theorem service_nodeport_cleared_counterexample :
    liveNodePort c3Live mysqlPortName = 30001
    ∧ appliedNodePortAfter
        (reconcileV1Service1 sampleCluster none (primaryServiceName sampleCluster) false
          (labelSet sampleCluster false ++ [(labelMocoRole, rolePrimary)]) (some c3Live))
        mysqlPortName = some 0
    ∧ (30001 : Int) ≠ 0 :=
  ⟨rfl, rfl, by decide⟩

/-- C3 amended: the NodePort values carried into the applied Service are
read from the ports already present on the template-derived Service
object before the operator overwrites the ports (so a NodePort declared
in the service template for the `mysql`/`mysqlx` ports is preserved
across applies); the live object is not consulted, and the write either
short-circuits or applies exactly that template-derived object. -/
theorem service_nodeport_carried_from_template (c : MySQLCluster)
    (template : Option ServiceTemplate) (name : String) (headless : Bool)
    (selector : List (String × String)) (m x : Int)
    (h : readNodePorts (templatePorts template headless) 0 0 = .ok (m, x)) :
    ∃ d, buildV1Service c template name headless selector = .ok d
      ∧ d.ports.map (fun p => (p.name, p.nodePort))
          = [(mysqlPortName, m), (mysqlXPortName, x)]
      ∧ ∀ live, reconcileV1Service1 c template name headless selector live = .ok live
          ∨ reconcileV1Service1 c template name headless selector live
              = .ok (some { applied := d, livePorts := d.ports }) := by
  have hb : ∃ d, buildV1Service c template name headless selector = .ok d
      ∧ d.ports = [{ name := mysqlPortName, port := mysqlPortNumber,
                     targetPort := mysqlPortName, nodePort := m },
                   { name := mysqlXPortName, port := mysqlXPortNumber,
                     targetPort := mysqlXPortName, nodePort := x }] := by
    unfold buildV1Service
    rw [h]
    exact ⟨_, rfl, rfl⟩
  obtain ⟨d, hbd, hports⟩ := hb
  refine ⟨d, hbd, by rw [hports]; rfl, ?_⟩
  intro live
  unfold reconcileV1Service1
  rw [hbd]
  cases live with
  | none => right; rfl
  | some l =>
    by_cases he : l.applied = d
    · left
      simp [he]
    · right
      simp [he]

def tplWitness : ServiceTemplate :=
  { labels := [("team", "db")], annotations := []
    spec := some { ports := [{ name := some "mysql", nodePort := some 30001 },
                             { name := some "mysqlx", nodePort := some 30002 }] } }

/-- Witness for C3 amended: a template declaring NodePorts 30001/30002;
both are carried into the applied Service. -/
theorem service_nodeport_carried_from_template_witness :
    ∃ d, buildV1Service sampleCluster (some tplWitness)
          (primaryServiceName sampleCluster) false
          (labelSet sampleCluster false ++ [(labelMocoRole, rolePrimary)]) = .ok d
      ∧ d.ports.map (fun p => (p.name, p.nodePort))
          = [(mysqlPortName, 30001), (mysqlXPortName, 30002)]
      ∧ ∀ live, reconcileV1Service1 sampleCluster (some tplWitness)
            (primaryServiceName sampleCluster) false
            (labelSet sampleCluster false ++ [(labelMocoRole, rolePrimary)]) live
            = .ok live
          ∨ reconcileV1Service1 sampleCluster (some tplWitness)
              (primaryServiceName sampleCluster) false
              (labelSet sampleCluster false ++ [(labelMocoRole, rolePrimary)]) live
              = .ok (some { applied := d, livePorts := d.ports }) :=
  service_nodeport_carried_from_template sampleCluster (some tplWitness)
    (primaryServiceName sampleCluster) false
    (labelSet sampleCluster false ++ [(labelMocoRole, rolePrimary)]) 30001 30002 rfl

/-! ### C4 -/

def emptyBackupState : BackupState :=
  { cronJob := none, role := false, roleBinding := false, policies := [] }

def emptyRestoreState : RestoreState :=
  { job := none, role := false, roleBinding := false }

def emptyKState : KState :=
  { controllerSecret := false, certificate := false, userSecret := false,
    mycnfSecret := false, grpcSecret := false, configMaps := [],
    serviceAccount := false, headlessSvc := none, primarySvc := none,
    replicaSvc := none, statefulSet := none, pdb := none,
    backup := emptyBackupState, restoreSt := emptyRestoreState }

def noMysqldCluster : MySQLCluster :=
  { sampleCluster with containers := [{ name := "agent", resources := none }] }

/-- Counterexample to C4: a cluster whose pod template has no `mysqld`
container, reconciled against an empty namespace.  The reconcile does
fail with the descriptive error, but it is not true that no managed
child is created: `reconcileV1Secret` runs before the `mysqld` check in
`reconcileV1MyCnf`, so the user secret (among others) has already been
created when the reconcile fails. -/
theorem reconcile_without_mysqld_emits_secret_counterexample :
    (reconcileV1 gWitness noMysqldCluster emptyKState).1
        = .error "MySQLD container not found"
    ∧ (reconcileV1 gWitness noMysqldCluster emptyKState).2.1.userSecret = true
    ∧ emptyKState.userSecret = false :=
  ⟨rfl, rfl, rfl⟩

/-- C4 amended: for every cluster spec whose pod template contains no
`mysqld` container, the reconciliation fails with the descriptive error
`MySQLD container not found`, and no child from the failing my.cnf step
onward is emitted — the ConfigMaps, ServiceAccount, Services,
StatefulSet, PDB, backup and restore objects are all left unchanged;
only the secrets and certificate reconciled by the steps that run before
the check may have been created. -/
theorem reconcile_without_mysqld_fails_before_later_children
    (g : MycnfGenerate) (c : MySQLCluster) (s : KState)
    (hdel : c.deletionTimestamp = false)
    (hct : findMysqldContainer c = none) :
    (reconcileV1 g c s).1 = .error "MySQLD container not found"
    ∧ (reconcileV1 g c s).2.1.configMaps = s.configMaps
    ∧ (reconcileV1 g c s).2.1.serviceAccount = s.serviceAccount
    ∧ (reconcileV1 g c s).2.1.headlessSvc = s.headlessSvc
    ∧ (reconcileV1 g c s).2.1.primarySvc = s.primarySvc
    ∧ (reconcileV1 g c s).2.1.replicaSvc = s.replicaSvc
    ∧ (reconcileV1 g c s).2.1.statefulSet = s.statefulSet
    ∧ (reconcileV1 g c s).2.1.pdb = s.pdb
    ∧ (reconcileV1 g c s).2.1.backup = s.backup
    ∧ (reconcileV1 g c s).2.1.restoreSt = s.restoreSt := by
  by_cases hcs : s.controllerSecret <;>
    simp [reconcileV1, hdel, stepSeq, stepSecret, stepCertificate, stepGRPCSecret,
          stepMyCnf, reconcileV1MyCnf, hct, hcs]

def c4State : KState :=
  { emptyKState with
      configMaps := [{ name := "keep-me", labels := [], data := [] }]
      statefulSet := some { name := "moco-test", replicas := 3, mycnfName := "m",
                            serviceAccountName := "moco-test" } }

/-- Witness for C4 amended at a concrete cluster and a namespace that
already holds a user ConfigMap and a StatefulSet. -/
theorem reconcile_without_mysqld_fails_before_later_children_witness :
    (reconcileV1 gWitness noMysqldCluster c4State).1
        = .error "MySQLD container not found"
    ∧ (reconcileV1 gWitness noMysqldCluster c4State).2.1.configMaps = c4State.configMaps
    ∧ (reconcileV1 gWitness noMysqldCluster c4State).2.1.serviceAccount
        = c4State.serviceAccount
    ∧ (reconcileV1 gWitness noMysqldCluster c4State).2.1.headlessSvc = c4State.headlessSvc
    ∧ (reconcileV1 gWitness noMysqldCluster c4State).2.1.primarySvc = c4State.primarySvc
    ∧ (reconcileV1 gWitness noMysqldCluster c4State).2.1.replicaSvc = c4State.replicaSvc
    ∧ (reconcileV1 gWitness noMysqldCluster c4State).2.1.statefulSet = c4State.statefulSet
    ∧ (reconcileV1 gWitness noMysqldCluster c4State).2.1.pdb = c4State.pdb
    ∧ (reconcileV1 gWitness noMysqldCluster c4State).2.1.backup = c4State.backup
    ∧ (reconcileV1 gWitness noMysqldCluster c4State).2.1.restoreSt = c4State.restoreSt :=
  reconcile_without_mysqld_fails_before_later_children gWitness noMysqldCluster c4State
    rfl rfl

/-! ### C10 -/

/-- C10: for every cluster with a non-nil deletion timestamp that does
not carry the finalizer `moco.cybozu.com/mysqlcluster`, `reconcileV1`
returns success immediately: the state is unchanged (in particular the
controller-namespace secret and certificate are not deleted) and the
operation trace is empty (no `Stop` call to the clustering manager and
no update of the cluster object). -/
theorem deletion_without_finalizer_is_noop (g : MycnfGenerate) (c : MySQLCluster)
    (s : KState) (h1 : c.deletionTimestamp = true)
    (h2 : mysqlClusterFinalizer ∉ c.finalizers) :
    reconcileV1 g c s = (.ok (), s, []) := by
  unfold reconcileV1
  rw [h1]
  simp [h2]

def deletedNoFinalizerCluster : MySQLCluster :=
  { sampleCluster with deletionTimestamp := true, finalizers := [] }

/-- Witness for C10: a concrete deleted cluster without the finalizer. -/
theorem deletion_without_finalizer_is_noop_witness :
    reconcileV1 gWitness deletedNoFinalizerCluster c4State = (.ok (), c4State, []) :=
  deletion_without_finalizer_is_noop gWitness deletedNoFinalizerCluster c4State rfl
    (by simp [deletedNoFinalizerCluster])

end Moco
